import Mathlib

/-!
Verification development for `spaceone/inventory/service/collector_service.py`
(the collect-job orchestrator of the inventory service).

The Python source is shallowly embedded: pure helpers become Lean functions,
and the stateful `collect` procedure becomes an explicit state-passing
function whose fallible external collaborator calls (plugin registry, secret
store, job store, rule store, queue transport) are supplied by an `Env`
record of call results.  Exceptions are modelled with `Except String` and
explicit success flags; persistent side effects survive a raised exception
exactly as database writes do in the source.
-/

namespace CollectorSvc

/-- Python truthiness for an optional string value: `None` and the empty
string are falsy.  Used where the source tests a value with `if x:` or a
walrus assignment `if x := d.get(k):`. -/
def pyStr : Option String → Option String
  | some s => if s = "" then none else some s
  | none => none

/-! ## Secret filter and secret selection (source lines 354-361, 440-452) -/

/-- The `secret_filter` mapping attached to a collector's plugin info.
A field is `some l` exactly when the corresponding key is present in the
dict (key presence, not truthiness, is what the source tests with `in`). -/
structure SecretFilter where
  secrets : Option (List String)
  service_accounts : Option (List String)
  schemas : Option (List String)
  deriving DecidableEq

/-- A filter-condition value: either a single string (`eq`) or a list
(`in`), as placed in the `v` slot of a condition dict. -/
inductive FVal
  | strv (x : String)
  | arr (xs : List String)
  deriving DecidableEq

/-- One condition dict of the store query: keys `k`, `v`, `o`. -/
structure FilterCond where
  k : String
  v : FVal
  o : String
  deriving DecidableEq

/-- Embedding of `CollectorService._set_secret_filter` (source lines
440-452): appends, in source order, an `in` clause per present key of the
filter and an `eq` clause when a truthy `secret_id` is supplied. -/
def set_secret_filter (secret_filter : SecretFilter) (secret_id : Option String) :
    List FilterCond :=
  (match secret_filter.secrets with
   | some l => [⟨"secret_id", FVal.arr l, "in"⟩]
   | none => [])
  ++ (match secret_filter.service_accounts with
      | some l => [⟨"service_account_id", FVal.arr l, "in"⟩]
      | none => [])
  ++ (match secret_filter.schemas with
      | some l => [⟨"schema", FVal.arr l, "in"⟩]
      | none => [])
  ++ (match pyStr secret_id with
      | some i => [⟨"secret_id", FVal.strv i, "eq"⟩]
      | none => [])

/-- A secret summary as returned by the secret store (external entity,
read-only here; §3 of the spec). -/
structure SecretRec where
  secret_id : String
  provider : Option String
  service_account_id : Option String
  project_id : Option String
  schema : Option String
  deriving DecidableEq

/-- Field lookup of a secret record under a condition key. -/
def recField (s : SecretRec) (k : String) : Option String :=
  if k = "secret_id" then some s.secret_id
  else if k = "service_account_id" then s.service_account_id
  else if k = "schema" then s.schema
  else none

/-- Whether one query condition matches a secret record. -/
def condMatches (c : FilterCond) (s : SecretRec) : Bool :=
  match c.o, c.v with
  | "in", FVal.arr xs =>
    match recField s c.k with
    | some x => xs.contains x
    | none => false
  | "eq", FVal.strv x => recField s c.k == some x
  | _, _ => false

/-- Modelled from the spec: `SecretManager.list_secrets` is not under
`src/`; per §4.3 and §6 the secret store applies the query's filter
conditions conjunctively over the domain's secrets, and an absent filter
(empty query) returns every secret visible in the domain. -/
def list_secrets (query : Option (List FilterCond)) (domainSecrets : List SecretRec) :
    List SecretRec :=
  match query with
  | none => domainSecrets
  | some conds => domainSecrets.filter (fun s => conds.all (fun c => condMatches c s))

/-- Embedding of `CollectorService.list_secret_from_secret_filter` (source
lines 354-361): builds the filter, sends an empty query when the filter is
empty (`query = {'filter': f} if f else {}`), and returns the secret ids of
the results. -/
def list_secret_from_secret_filter (secret_filter : SecretFilter)
    (secret_id : Option String) (domainSecrets : List SecretRec) : List String :=
  let f := set_secret_filter secret_filter secret_id
  let query := if f.isEmpty then none else some f
  (list_secrets query domainSecrets).map (·.secret_id)

/-- The spec's reading of eligibility (§4.3): a conjunction of up to four
independent clauses, each active only when its input is present.  Written
from the spec's words, to be compared with the source-built query. -/
def spec_eligible (secret_filter : SecretFilter) (secret_id : Option String)
    (s : SecretRec) : Bool :=
  (match secret_filter.secrets with
   | some l => l.contains s.secret_id
   | none => true)
  && (match secret_filter.service_accounts with
      | some l =>
        match s.service_account_id with
        | some a => l.contains a
        | none => false
      | none => true)
  && (match secret_filter.schemas with
      | some l =>
        match s.schema with
        | some a => l.contains a
        | none => false
      | none => true)
  && (match pyStr secret_id with
      | some i => s.secret_id == i
      | none => true)

/-! ## Provider resolution in `create` (source lines 60-65, 454-466) -/

/-- Plugin capability mapping; `supported_providers` defaults to `[]` when
the key is absent (`capability.get('supported_providers', [])`). -/
structure Capability where
  supported_providers : List String
  deriving DecidableEq

/-- The plugin record fetched from the repository in `create`. -/
structure RepoPluginInfo where
  capability : Capability
  provider : Option String
  deriving DecidableEq

/-- Embedding of `CollectorService._get_plugin_providers` (source lines
454-466).  With a non-empty supported list the caller-supplied provider
must be a member (Python `provider in supported_providers`; `None` is never
a member), otherwise `ERROR_INVALID_PARAMETER` is raised; with an empty
list the result is `provider if provider else plugin_info.get('provider')`
(truthiness). -/
def get_plugin_providers (provider : Option String) (plugin_info : RepoPluginInfo) :
    Except String (Option String) :=
  let supported := plugin_info.capability.supported_providers
  if supported.isEmpty then
    Except.ok (match pyStr provider with
               | some p => some p
               | none => plugin_info.provider)
  else
    match provider with
    | some p =>
      if supported.contains p then Except.ok (some p)
      else Except.error "ERROR_INVALID_PARAMETER"
    | none => Except.error "ERROR_INVALID_PARAMETER"

/-- Embedding of the capability/provider step of `CollectorService.create`
(source lines 60-65): `params` receive the repository plugin's capability
and the resolved provider; a provider error aborts `create`. -/
def create_capability_provider (provider : Option String)
    (repo_info : RepoPluginInfo) : Except String (Capability × Option String) :=
  match get_plugin_providers provider repo_info with
  | Except.ok p => Except.ok (repo_info.capability, p)
  | Except.error e => Except.error e

/-! ## Collector rules (source lines 405-423) -/

/-- One entry of `metadata.collector_rules`: its condition/action payload,
kept opaque (taken verbatim from plugin metadata, §3). -/
structure RuleParams where
  payload : String
  deriving DecidableEq

/-- Plugin metadata: only the `collector_rules` list matters here. -/
structure Metadata where
  collector_rules : List RuleParams
  deriving DecidableEq

/-- A stored collector rule record. -/
structure CollectorRule where
  payload : String
  domain_id : String
  collector_id : String
  rule_type : String
  deriving DecidableEq

/-- Creation loop of `create_collector_rules_by_metadata`: each rule params
dict is updated with `domain_id`, `collector_id` and `rule_type='MANAGED'`
and then created; the store call for the `idx`-th rule raises when
`failAt = some idx`, leaving the rules created so far in place. -/
def create_rules_go (failAt : Option Nat) (domain_id collector_id : String) :
    List CollectorRule → Nat → List RuleParams → List CollectorRule × Option String
  | rules, _, [] => (rules, none)
  | rules, idx, rp :: rest =>
    if failAt = some idx then (rules, some "create_collector_rule failed")
    else
      create_rules_go failAt domain_id collector_id
        (rules ++ [⟨rp.payload, domain_id, collector_id, "MANAGED"⟩]) (idx + 1) rest

/-- Embedding of `CollectorService.create_collector_rules_by_metadata`
(source lines 405-416).  The source signature's positional parameter order
is `(plugin_metadata, domain_id, collector_id)` — kept here exactly, since
the call sites (source lines 86, 210, 322) pass
`(metadata, collector_id, domain_id)` positionally. -/
def create_collector_rules_by_metadata (failAt : Option Nat)
    (rules : List CollectorRule) (plugin_metadata : Metadata)
    (domain_id collector_id : String) : List CollectorRule × Option String :=
  create_rules_go failAt domain_id collector_id rules 0 plugin_metadata.collector_rules

/-- Embedding of `CollectorService.delete_collector_rules` (source lines
418-423): deletes every rule of the collector in the domain whose
`rule_type` is `MANAGED`; `ok = false` models the store call raising. -/
def delete_collector_rules (ok : Bool) (rules : List CollectorRule)
    (collector_id domain_id : String) : Except String (List CollectorRule) :=
  if ok then
    Except.ok (rules.filter (fun r =>
      !(r.collector_id == collector_id && r.rule_type == "MANAGED"
        && r.domain_id == domain_id)))
  else Except.error "delete_collector_rules failed"

/-! ## Job state, plugin info and the collect environment -/

/-- The plugin binding stored on a collector (`plugin_info` dict). -/
structure PluginInfo where
  plugin_id : String
  version : String
  options : String
  upgrade_mode : String
  metadata : Metadata
  secret_filters : SecretFilter
  deriving DecidableEq

/-- One entry of a job's error log: the error code and the `secret_id`
taken from the context dict (absent for the initialize error, whose
context is the request params). -/
structure ErrEntry where
  code : String
  secret_id : Option String
  deriving DecidableEq

/-- A job record: lifecycle state, progress counters, error log and the
aggregated project list. -/
structure Job where
  job_id : String
  state : String
  total_tasks : Nat
  remained_tasks : Nat
  errors : List ErrEntry
  projects : List String
  deriving DecidableEq

/-- The secret info dict built by `CollectorService._set_secret_info`
(source lines 425-438): always carries the secret id; provider, service
account and project are added only when truthy on the fetched secret. -/
structure SecretInfo where
  secret_id : String
  provider : Option String
  service_account_id : Option String
  project_id : Option String
  deriving DecidableEq

/-- Embedding of `CollectorService._set_secret_info` applied to the secret
record fetched from the store. -/
def set_secret_info (secret_id : String) (secret : SecretRec) : SecretInfo :=
  { secret_id := secret_id
    provider := pyStr secret.provider
    service_account_id := pyStr secret.service_account_id
    project_id := pyStr secret.project_id }

/-- The collecting-task payload.  Modelled from the spec: the builder
`CollectorManager.make_collecting_parameters` is not under `src/`; §6
gives the task wire format (`plugin_info`, `secret_id`, `domain_id`,
`job_id`, `job_task_id`, `secret_data`, `use_cache`). -/
structure ReqParams where
  plugin_info : PluginInfo
  secret_id : String
  domain_id : String
  job_id : String
  job_task_id : String
  secret_data : String
  use_cache : Bool
  deriving DecidableEq

/-- Modelled from the spec: `CollectorManager.make_collecting_parameters`
(called at source lines 252-257) assembles the §6 task payload from the
collector's plugin info, the secret, the job and the request params. -/
def make_collecting_parameters (plugin_info : PluginInfo)
    (secret_id domain_id job_id job_task_id secret_data : String)
    (use_cache : Bool) : ReqParams :=
  ⟨plugin_info, secret_id, domain_id, job_id, job_task_id, secret_data, use_cache⟩

/-- Observable actions of one collect invocation, in program order. -/
inductive Event
  | secretStart (sid : String)
  | incTotalEv (sid : String)
  | incRemainedEv (sid : String)
  | jobTaskCreated (sid : String)
  | modeAsync (sid : String)
  | modeSync (sid : String)
  | taskValidated (sid : String) (task : String)
  | enqueued (sid : String) (queue : String) (task : String)
  | syncExec (sid : String) (plugin_info : PluginInfo) (secret_data : String)
      (domain_id : String) (job_id : String) (use_cache : Bool)
  | errorAdded (code : String) (sid : Option String)
  deriving DecidableEq

/-- Results of the external calls made for one secret of the loop (source
lines 239-278).  A `false`/`error` component models that call raising. -/
structure SecretOracle where
  incTotalOk : Bool
  incRemainedOk : Bool
  getSecret : Except String SecretRec
  createJobTaskOk : Bool
  jobTaskId : String
  makeParamsOk : Bool
  secretData : String
  taskPipeline : Except String (Option String)
  validateOk : Bool
  serializeOk : Bool
  enqueueOk : Bool
  syncOk : Bool

/-- Results of every external call one `collect` invocation makes. -/
structure Env where
  plugin_info : PluginInfo
  rules0 : List CollectorRule
  endpoint : Except String (String × Option String)
  init_metadata : Except String Metadata
  deleteRulesOk : Bool
  createRuleFail : Option Nat
  jobId : String
  domainSecrets : Except String (List SecretRec)
  inprogressOk : Bool
  queueName : Option String
  secretOracle : String → SecretOracle
  updateLastCollectedOk : Bool
  updateJobOk : Bool

/-- The request params of a `collect` call. -/
structure CollectParams where
  collector_id : String
  domain_id : String
  secret_id : Option String
  use_cache : Bool

/-- Mutable state threaded through the per-secret loop: the job record,
the created job tasks `(job_id, secret_id)` and the local `projects`
accumulator. -/
structure LoopSt where
  job : Job
  job_tasks : List (String × String)
  projects : List String
  deriving DecidableEq

/-- The per-secret `except` handler (source lines 275-278): records an
`ERROR_COLLECTOR_COLLECTING` entry with the offending secret id on the
job's error log and lets the loop continue. -/
def failFinish (st : LoopSt) (evs : List Event) (sid : String) :
    LoopSt × List Event :=
  ({ st with job := { st.job with
       errors := st.job.errors ++ [⟨"ERROR_COLLECTOR_COLLECTING", some sid⟩] } },
   evs ++ [Event.errorAdded "ERROR_COLLECTOR_COLLECTING" (some sid)])

/-- Embedding of one iteration of the per-secret loop of
`CollectorService.collect` (source lines 239-278), in source order:
increment total then remained counters, fetch the secret and record its
project id, create the job task, build the task payload, construct the
task pipeline, read the queue name, then dispatch asynchronously when both
a task object and a queue name are present (validate, serialize, enqueue)
and synchronously otherwise; any raise lands in `failFinish`. -/
def processSecret (env : Env) (params : CollectParams) (piU : PluginInfo)
    (st : LoopSt) (sid : String) : LoopSt × List Event :=
  let o := env.secretOracle sid
  let evs := [Event.secretStart sid]
  if o.incTotalOk = false then failFinish st evs sid else
  let st1 := { st with job := { st.job with total_tasks := st.job.total_tasks + 1 } }
  let evs := evs ++ [Event.incTotalEv sid]
  if o.incRemainedOk = false then failFinish st1 evs sid else
  let st2 := { st1 with job := { st1.job with remained_tasks := st1.job.remained_tasks + 1 } }
  let evs := evs ++ [Event.incRemainedEv sid]
  match o.getSecret with
  | Except.error _ => failFinish st2 evs sid
  | Except.ok secret =>
    let sinfo := set_secret_info sid secret
    let st3 := { st2 with projects := st2.projects
      ++ (match sinfo.project_id with | some pid => [pid] | none => []) }
    if o.createJobTaskOk = false then failFinish st3 evs sid else
    let st4 := { st3 with job_tasks := st3.job_tasks ++ [(st3.job.job_id, sid)] }
    let evs := evs ++ [Event.jobTaskCreated sid]
    if o.makeParamsOk = false then failFinish st4 evs sid else
    let req := make_collecting_parameters piU sid params.domain_id st4.job.job_id
      o.jobTaskId o.secretData params.use_cache
    match o.taskPipeline with
    | Except.error _ => failFinish st4 evs sid
    | Except.ok taskOpt =>
      match taskOpt, env.queueName with
      | some task, some qname =>
        let evs := evs ++ [Event.modeAsync sid, Event.taskValidated sid task]
        if o.validateOk = false then failFinish st4 evs sid else
        if o.serializeOk = false then failFinish st4 evs sid else
        let evs := evs ++ [Event.enqueued sid qname task]
        if o.enqueueOk = false then failFinish st4 evs sid else
        (st4, evs)
      | _, _ =>
        let evs := evs ++ [Event.modeSync sid,
          Event.syncExec sid req.plugin_info req.secret_data req.domain_id
            req.job_id req.use_cache]
        if o.syncOk = false then failFinish st4 evs sid else
        (st4, evs)

/-- The per-secret loop (source line 239): sequential fold over the
eligible secret ids, accumulating events. -/
def runLoop (env : Env) (params : CollectParams) (piU : PluginInfo) :
    LoopSt → List String → LoopSt × List Event
  | st, [] => (st, [])
  | st, sid :: rest =>
    let r1 := processSecret env params piU st sid
    let r2 := runLoop env params piU r1.1 rest
    (r2.1, r1.2 ++ r2.2)

/-- Whether the try-body for one secret raises somewhere (and hence the
`except` handler runs), as a function of that secret's call results and
the configured queue name. -/
def bodyFails (o : SecretOracle) (queueName : Option String) : Bool :=
  !o.incTotalOk || !o.incRemainedOk
  || (match o.getSecret with | Except.error _ => true | Except.ok _ => false)
  || !o.createJobTaskOk || !o.makeParamsOk
  || (match o.taskPipeline with
      | Except.error _ => true
      | Except.ok taskOpt =>
        match taskOpt, queueName with
        | some _, some _ => !o.validateOk || !o.serializeOk || !o.enqueueOk
        | _, _ => !o.syncOk)

/-- How a `collect` invocation terminates: the value returned, the
`ERROR_COLLECT_INITIALIZE` raise of source line 228, or an uncaught
exception propagating out. -/
inductive CollectErr
  | errorCollectInitialize
  | raw (msg : String)
  deriving DecidableEq

/-- Everything observable about one `collect` invocation: final rule
store, the job record as persisted (if one was created), the created job
tasks, whether the collector's last-collected timestamp was written, the
event trace and the call's outcome. -/
structure CollectOutcome where
  rules : List CollectorRule
  job : Option Job
  job_tasks : List (String × String)
  last_collected_updated : Bool
  events : List Event
  ret : Except CollectErr Job

/-- The plugin-upgrade block of `collect` (source lines 203-210): when the
resolver reported a new version, re-initialize the plugin, update the
stored plugin info, then delete the collector's MANAGED rules and recreate
them from the fresh metadata.  None of this is wrapped in a try: a raise
propagates (returned as `Except.error`), leaving the rules written so far.
The creation call passes `(metadata, collector_id, domain_id)` positionally,
exactly as source line 210 does against the
`(plugin_metadata, domain_id, collector_id)` signature. -/
def collectUpgrade (env : Env) (params : CollectParams)
    (updated_version : Option String) :
    List CollectorRule × Except String PluginInfo :=
  match updated_version with
  | none => (env.rules0, Except.ok env.plugin_info)
  | some v =>
    match env.init_metadata with
    | Except.error e => (env.rules0, Except.error e)
    | Except.ok md =>
      let piU := { env.plugin_info with version := v, metadata := md }
      match delete_collector_rules env.deleteRulesOk env.rules0
          params.collector_id params.domain_id with
      | Except.error e => (env.rules0, Except.error e)
      | Except.ok rules1 =>
        match create_collector_rules_by_metadata env.createRuleFail rules1 md
            params.collector_id params.domain_id with
        | (rules2, none) => (rules2, Except.ok piU)
        | (rules2, some e) => (rules2, Except.error e)

/-- Embedding of `CollectorService.collect` (source lines 180-282):
resolve the endpoint, run the upgrade block, create the job, select the
eligible secrets (the only guarded stage: a raise there records
`ERROR_COLLECT_INITIALIZE`, marks the job ERROR and re-raises), return a
SUCCESS job immediately when no secret is eligible, softly mark the job
in-progress, run the per-secret loop, then — unguarded — update the
collector's last-collected timestamp and persist the deduplicated project
list on the job. -/
def collect (env : Env) (params : CollectParams) : CollectOutcome :=
  match env.endpoint with
  | Except.error e => ⟨env.rules0, none, [], false, [], Except.error (CollectErr.raw e)⟩
  | Except.ok (_ep, updated_version) =>
    match collectUpgrade env params updated_version with
    | (rules, Except.error e) => ⟨rules, none, [], false, [], Except.error (CollectErr.raw e)⟩
    | (rules, Except.ok piU) =>
      let job0 : Job := ⟨env.jobId, "CREATED", 0, 0, [], []⟩
      match env.domainSecrets with
      | Except.error _e =>
        let job1 := { job0 with
          errors := [⟨"ERROR_COLLECT_INITIALIZE", none⟩], state := "ERROR" }
        ⟨rules, some job1, [], false,
         [Event.errorAdded "ERROR_COLLECT_INITIALIZE" none],
         Except.error CollectErr.errorCollectInitialize⟩
      | Except.ok ds =>
        let secret_ids := list_secret_from_secret_filter piU.secret_filters
          params.secret_id ds
        if secret_ids.isEmpty then
          let job1 := { job0 with state := "SUCCESS" }
          ⟨rules, some job1, [], false, [], Except.ok job1⟩
        else
          let job1 := if env.inprogressOk then { job0 with state := "IN_PROGRESS" } else job0
          let r := runLoop env params piU ⟨job1, [], []⟩ secret_ids
          if env.updateLastCollectedOk then
            if env.updateJobOk then
              let jobF := { r.1.job with projects := r.1.projects.eraseDups }
              ⟨rules, some jobF, r.1.job_tasks, true, r.2, Except.ok jobF⟩
            else
              ⟨rules, some r.1.job, r.1.job_tasks, true, r.2,
               Except.error (CollectErr.raw "update_job failed")⟩
          else
            ⟨rules, some r.1.job, r.1.job_tasks, false, r.2,
             Except.error (CollectErr.raw "update_last_collected_time failed")⟩

/-- The eligible-secret selection as a function of the environment alone
(the secret filter on the stored plugin info is unchanged by the upgrade
block, so this matches what `collect` computes). -/
def secretIdsOf (env : Env) (params : CollectParams) : Except String (List String) :=
  match env.domainSecrets with
  | Except.error e => Except.error e
  | Except.ok ds =>
    Except.ok (list_secret_from_secret_filter env.plugin_info.secret_filters
      params.secret_id ds)

/-- Whether the MANAGED-rule resynchronization of the upgrade block fails
(the delete raises, or the creation of some rule within range raises). -/
def resyncFails (env : Env) (md : Metadata) : Bool :=
  !env.deleteRulesOk
  || (match env.createRuleFail with
      | some k => decide (k < md.collector_rules.length)
      | none => false)

/-! ## Derived definitions used by the lemmas, and concrete instances -/

/-- The error entry the per-secret handler records for `sid`. -/
def collectingErr (sid : String) : ErrEntry :=
  ⟨"ERROR_COLLECTOR_COLLECTING", some sid⟩

/-- The job record entering the per-secret loop: freshly created, then
softly marked in-progress (state unchanged when that update raises). -/
def initJob (env : Env) : Job :=
  if env.inprogressOk then ⟨env.jobId, "IN_PROGRESS", 0, 0, [], []⟩
  else ⟨env.jobId, "CREATED", 0, 0, [], []⟩

/-- The outcome `collect` assembles once the per-secret loop is reached:
run the loop from the initial job, then perform the two unguarded trailing
updates (collector timestamp, project persist). -/
def loopOutcome (env : Env) (params : CollectParams) (piU : PluginInfo)
    (rules : List CollectorRule) (secret_ids : List String) : CollectOutcome :=
  let r := runLoop env params piU ⟨initJob env, [], []⟩ secret_ids
  if env.updateLastCollectedOk then
    if env.updateJobOk then
      let jobF := { r.1.job with projects := r.1.projects.eraseDups }
      ⟨rules, some jobF, r.1.job_tasks, true, r.2, Except.ok jobF⟩
    else
      ⟨rules, some r.1.job, r.1.job_tasks, true, r.2,
       Except.error (CollectErr.raw "update_job failed")⟩
  else
    ⟨rules, some r.1.job, r.1.job_tasks, false, r.2,
     Except.error (CollectErr.raw "update_last_collected_time failed")⟩

/-- The job of an outcome known to hold one. -/
def jOf (o : CollectOutcome) : Job :=
  o.job.getD ⟨"", "", 0, 0, [], []⟩

/-- An empty secret filter: no key present. -/
def sfNone : SecretFilter := ⟨none, none, none⟩

/-- A concrete secret record. -/
def secA : SecretRec := ⟨"s1", some "aws", some "sa-1", some "proj-1", some "sch-1"⟩

/-- A concrete plugin binding with no secret filter. -/
def piBase : PluginInfo := ⟨"plugin-1", "1.0", "opts", "AUTO", ⟨[]⟩, sfNone⟩

/-- Per-secret call results where every call succeeds, no task pipeline is
constructed and the secret resolves to `secA`. -/
def oracleOk : SecretOracle :=
  ⟨true, true, Except.ok secA, true, "jt-1", true, "sd-1", Except.ok none,
   true, true, true, true⟩

/-- A fully healthy environment: no upgrade, one eligible secret `s1`, no
queue configured (synchronous dispatch), every external call succeeds. -/
def envBase : Env :=
  { plugin_info := piBase, rules0 := [], endpoint := Except.ok ("ep", none),
    init_metadata := Except.ok ⟨[]⟩, deleteRulesOk := true, createRuleFail := none,
    jobId := "job-1", domainSecrets := Except.ok [secA], inprogressOk := true,
    queueName := none, secretOracle := fun _ => oracleOk,
    updateLastCollectedOk := true, updateJobOk := true }

/-- Concrete collect request params. -/
def pBase : CollectParams := ⟨"collector-1", "domain-1", none, false⟩

/-- Environment with a plugin upgrade to `2.0` whose fresh metadata holds
one collector rule, and a pre-existing MANAGED and CUSTOM rule. -/
def envC2 : Env :=
  { envBase with
    endpoint := Except.ok ("ep", some "2.0"),
    init_metadata := Except.ok ⟨[⟨"r1"⟩]⟩,
    rules0 := [⟨"old", "domain-1", "collector-1", "MANAGED"⟩,
               ⟨"cust", "domain-1", "collector-1", "CUSTOM"⟩] }

/-- Upgrade environment where the MANAGED-rule delete raises. -/
def envC7 : Env :=
  { envC2 with
    deleteRulesOk := false }

/-- Environment where the total-task counter increment raises for every
secret. -/
def envC5 : Env :=
  { envBase with
    secretOracle := fun _ => { oracleOk with incTotalOk := false } }

/-- Environment where updating the collector's last-collected timestamp
raises after the loop. -/
def envC3 : Env :=
  { envBase with
    updateLastCollectedOk := false }

/-- Environment where persisting the project set on the job raises after
the loop. -/
def envC8 : Env :=
  { envBase with
    updateJobOk := false }

/-- Environment whose secret store holds no secrets. -/
def envC4 : Env :=
  { envBase with
    domainSecrets := Except.ok [] }

/-- Environment where listing secrets raises. -/
def envSel : Env :=
  { envBase with
    domainSecrets := Except.error "secret service unavailable" }

/-- Environment with a configured collection queue and a successfully
constructed task pipeline (asynchronous dispatch). -/
def envAsync : Env :=
  { envBase with
    queueName := some "collect_queue",
    secretOracle := fun _ =>
      { oracleOk with taskPipeline := Except.ok (some "taskpayload") } }

/-- A loop state at the start of the loop for the dispatch witness. -/
def stAsync : LoopSt := ⟨⟨"job-1", "IN_PROGRESS", 0, 0, [], []⟩, [], []⟩

/-- A plugin declaring two supported providers, for the C10 witness. -/
def repoMulti : RepoPluginInfo := ⟨⟨["aws", "gcp"]⟩, some "plugin-provider"⟩

/-! ## Lemmas: the per-secret loop -/

/-- The head of a list is a member of it. -/
theorem mem_of_head?_eq {α : Type} {l : List α} {a : α} (h : l.head? = some a) :
    a ∈ l := by
  cases l with
  | nil => simp at h
  | cons b t =>
    simp only [List.head?_cons, Option.some.injEq] at h
    exact h ▸ List.mem_cons_self b t

/-- Core facts about one loop iteration: the error log grows by exactly
the `ERROR_COLLECTOR_COLLECTING` entry for this secret when and only when
its body raises; the total-task counter grows by one exactly when its
increment call succeeds; job state and id are untouched; and the emitted
events begin with this secret's start event. -/
theorem processSecret_facts (env : Env) (params : CollectParams) (piU : PluginInfo)
    (st : LoopSt) (sid : String) :
    (processSecret env params piU st sid).1.job.errors
        = st.job.errors
          ++ (if bodyFails (env.secretOracle sid) env.queueName
              then [collectingErr sid] else [])
    ∧ (processSecret env params piU st sid).1.job.total_tasks
        = st.job.total_tasks + (if (env.secretOracle sid).incTotalOk then 1 else 0)
    ∧ (processSecret env params piU st sid).1.job.state = st.job.state
    ∧ (processSecret env params piU st sid).1.job.job_id = st.job.job_id
    ∧ (processSecret env params piU st sid).2.head? = some (Event.secretStart sid) := by
  unfold processSecret bodyFails
  cases h1 : (env.secretOracle sid).incTotalOk
  · simp [h1, failFinish, collectingErr]
  cases h2 : (env.secretOracle sid).incRemainedOk
  · simp [h1, h2, failFinish, collectingErr]
  cases h3 : (env.secretOracle sid).getSecret with
  | error e =>
    simp [h1, h2, h3, failFinish, collectingErr]
  | ok secret =>
    cases h4 : (env.secretOracle sid).createJobTaskOk
    · simp [h1, h2, h3, h4, failFinish, collectingErr]
    cases h5 : (env.secretOracle sid).makeParamsOk
    · simp [h1, h2, h3, h4, h5, failFinish, collectingErr]
    cases h6 : (env.secretOracle sid).taskPipeline with
    | error e =>
      simp [h1, h2, h3, h4, h5, h6, failFinish, collectingErr]
    | ok taskOpt =>
      cases h7 : taskOpt <;> cases h8 : env.queueName <;>
        cases h9 : (env.secretOracle sid).validateOk <;>
        cases h10 : (env.secretOracle sid).serializeOk <;>
        cases h11 : (env.secretOracle sid).enqueueOk <;>
        cases h12 : (env.secretOracle sid).syncOk <;>
        simp [h1, h2, h3, h4, h5, h6, h7, h8, h9, h10, h11, h12,
          failFinish, collectingErr]

/-- The final error log of the loop: the initial log followed by one
`ERROR_COLLECTOR_COLLECTING` entry, in order, per failing secret. -/
theorem runLoop_errors (env : Env) (params : CollectParams) (piU : PluginInfo)
    (l : List String) (st : LoopSt) :
    (runLoop env params piU st l).1.job.errors
      = st.job.errors
        ++ (l.filter (fun sid => bodyFails (env.secretOracle sid) env.queueName)).map
            collectingErr := by
  induction l generalizing st with
  | nil => simp [runLoop]
  | cons sid rest ih =>
    rw [runLoop]
    rw [ih]
    rw [(processSecret_facts env params piU st sid).1]
    cases hb : bodyFails (env.secretOracle sid) env.queueName <;>
      simp [hb, List.filter_cons]

/-- The final total-task counter of the loop: the initial value plus one
per secret whose total-counter increment succeeded. -/
theorem runLoop_total (env : Env) (params : CollectParams) (piU : PluginInfo)
    (l : List String) (st : LoopSt) :
    (runLoop env params piU st l).1.job.total_tasks
      = st.job.total_tasks
        + (l.filter (fun sid => (env.secretOracle sid).incTotalOk)).length := by
  induction l generalizing st with
  | nil => simp [runLoop]
  | cons sid rest ih =>
    rw [runLoop]
    rw [ih]
    rw [(processSecret_facts env params piU st sid).2.1]
    cases hb : (env.secretOracle sid).incTotalOk <;>
      simp [hb, List.filter_cons] <;> omega

/-- Every secret of the list is reached by the loop: its start event is in
the trace, whatever happened to the secrets before it. -/
theorem runLoop_start_events (env : Env) (params : CollectParams) (piU : PluginInfo)
    (l : List String) (st : LoopSt) :
    ∀ sid ∈ l, Event.secretStart sid ∈ (runLoop env params piU st l).2 := by
  induction l generalizing st with
  | nil => intro sid h; cases h
  | cons a rest ih =>
    intro sid h
    rw [runLoop]
    rcases List.mem_cons.mp h with heq | hmem
    · subst heq
      have hh := (processSecret_facts env params piU st sid).2.2.2.2
      exact List.mem_append.mpr (Or.inl (mem_of_head?_eq hh))
    · exact List.mem_append.mpr
        (Or.inr (ih (processSecret env params piU st a).1 sid hmem))

/-! ## Lemmas: case characterizations of `collect` -/

/-- Endpoint resolution failure: nothing happens, the raise propagates. -/
theorem collect_endpoint_error (env : Env) (params : CollectParams) (e : String)
    (hE : env.endpoint = Except.error e) :
    collect env params
      = ⟨env.rules0, none, [], false, [], Except.error (CollectErr.raw e)⟩ := by
  simp only [collect, hE]

/-- Upgrade-block failure: no job is created, the raise propagates,
leaving the rules written so far. -/
theorem collect_upgrade_error (env : Env) (params : CollectParams)
    (ep : String) (uv : Option String) (rules : List CollectorRule) (e : String)
    (hE : env.endpoint = Except.ok (ep, uv))
    (hU : collectUpgrade env params uv = (rules, Except.error e)) :
    collect env params
      = ⟨rules, none, [], false, [], Except.error (CollectErr.raw e)⟩ := by
  simp only [collect, hE, hU]

/-- Secret-selection failure: the initialize error is recorded, the job is
marked ERROR and the tagged initialize error propagates. -/
theorem collect_selection_error (env : Env) (params : CollectParams)
    (ep : String) (uv : Option String) (rules : List CollectorRule)
    (piU : PluginInfo) (e : String)
    (hE : env.endpoint = Except.ok (ep, uv))
    (hU : collectUpgrade env params uv = (rules, Except.ok piU))
    (hD : env.domainSecrets = Except.error e) :
    collect env params
      = ⟨rules,
         some ⟨env.jobId, "ERROR", 0, 0, [⟨"ERROR_COLLECT_INITIALIZE", none⟩], []⟩,
         [], false, [Event.errorAdded "ERROR_COLLECT_INITIALIZE" none],
         Except.error CollectErr.errorCollectInitialize⟩ := by
  simp only [collect, hE, hU, hD]

/-- Zero eligible secrets: the job is marked SUCCESS and returned at once,
with no task created and no event emitted. -/
theorem collect_empty (env : Env) (params : CollectParams)
    (ep : String) (uv : Option String) (rules : List CollectorRule)
    (piU : PluginInfo) (ds : List SecretRec)
    (hE : env.endpoint = Except.ok (ep, uv))
    (hU : collectUpgrade env params uv = (rules, Except.ok piU))
    (hD : env.domainSecrets = Except.ok ds)
    (he : (list_secret_from_secret_filter piU.secret_filters params.secret_id
      ds).isEmpty = true) :
    collect env params
      = ⟨rules, some ⟨env.jobId, "SUCCESS", 0, 0, [], []⟩, [], false, [],
         Except.ok ⟨env.jobId, "SUCCESS", 0, 0, [], []⟩⟩ := by
  simp only [collect, hE, hU, hD, he, ite_true]

/-- Non-empty selection: `collect` runs the loop and the trailing
updates, as packaged by `loopOutcome`. -/
theorem collect_loop (env : Env) (params : CollectParams)
    (ep : String) (uv : Option String) (rules : List CollectorRule)
    (piU : PluginInfo) (ds : List SecretRec)
    (hE : env.endpoint = Except.ok (ep, uv))
    (hU : collectUpgrade env params uv = (rules, Except.ok piU))
    (hD : env.domainSecrets = Except.ok ds)
    (he : (list_secret_from_secret_filter piU.secret_filters params.secret_id
      ds).isEmpty = false) :
    collect env params
      = loopOutcome env params piU rules
          (list_secret_from_secret_filter piU.secret_filters params.secret_id ds) := by
  simp only [collect, loopOutcome, initJob, hE, hU, hD, he, Bool.false_eq_true,
    ite_false]

/-- An upgrade that completes leaves the stored secret filter unchanged
(only version and metadata are rewritten). -/
theorem collectUpgrade_ok_filters (env : Env) (params : CollectParams)
    (uv : Option String) (rules : List CollectorRule) (piU : PluginInfo)
    (h : collectUpgrade env params uv = (rules, Except.ok piU)) :
    piU.secret_filters = env.plugin_info.secret_filters := by
  cases uv with
  | none =>
    simp only [collectUpgrade, Prod.mk.injEq, Except.ok.injEq] at h
    rw [← h.2]
  | some v =>
    cases hm : env.init_metadata with
    | error e => simp [collectUpgrade, hm] at h
    | ok md =>
      cases hd : delete_collector_rules env.deleteRulesOk env.rules0
          params.collector_id params.domain_id with
      | error e => simp [collectUpgrade, hm, hd] at h
      | ok rules1 =>
        cases hc : create_collector_rules_by_metadata env.createRuleFail rules1 md
            params.collector_id params.domain_id with
        | mk rules2 eo =>
          cases eo with
          | none =>
            simp only [collectUpgrade, hm, hd, hc, Prod.mk.injEq,
              Except.ok.injEq] at h
            rw [← h.2]
          | some e => simp [collectUpgrade, hm, hd, hc] at h

/-- Shape of the outcome once the loop is reached: the persisted job
carries the loop's error log and counters; the call returns the job when
both trailing updates succeed and otherwise propagates their raw error. -/
theorem loopOutcome_facts (env : Env) (params : CollectParams) (piU : PluginInfo)
    (rules : List CollectorRule) (sids : List String) :
    ∃ jf, (loopOutcome env params piU rules sids).job = some jf
      ∧ jf.errors = (runLoop env params piU ⟨initJob env, [], []⟩ sids).1.job.errors
      ∧ jf.total_tasks
          = (runLoop env params piU ⟨initJob env, [], []⟩ sids).1.job.total_tasks
      ∧ (loopOutcome env params piU rules sids).events
          = (runLoop env params piU ⟨initJob env, [], []⟩ sids).2
      ∧ (env.updateLastCollectedOk = true → env.updateJobOk = true →
          (loopOutcome env params piU rules sids).ret = Except.ok jf)
      ∧ (∀ err, (loopOutcome env params piU rules sids).ret = Except.error err →
          err ≠ CollectErr.errorCollectInitialize
          ∧ (env.updateLastCollectedOk = false ∨ env.updateJobOk = false)) := by
  unfold loopOutcome
  cases hlc : env.updateLastCollectedOk <;> cases huj : env.updateJobOk <;>
    simp

/-- A persisted job implies endpoint resolution and the upgrade block
succeeded, and the loop's plugin info kept the stored secret filter. -/
theorem collect_job_some_cases (env : Env) (params : CollectParams) (j : Job)
    (hj : (collect env params).job = some j) :
    ∃ ep uv rules piU, env.endpoint = Except.ok (ep, uv)
      ∧ collectUpgrade env params uv = (rules, Except.ok piU)
      ∧ piU.secret_filters = env.plugin_info.secret_filters := by
  rcases hE : env.endpoint with e | ⟨ep, uv⟩
  · rw [collect_endpoint_error env params e hE] at hj
    simp at hj
  · rcases hU : collectUpgrade env params uv with ⟨rules, pe⟩
    cases pe with
    | error e =>
      rw [collect_upgrade_error env params ep uv rules e hE hU] at hj
      simp at hj
    | ok piU =>
      exact ⟨ep, uv, rules, piU, hE ▸ rfl, hU,
        collectUpgrade_ok_filters env params uv rules piU hU⟩

/-- If the failure knob `failAt` points inside the rule list, the creation
loop raises (returning the error marker with the rules created so far). -/
theorem create_rules_go_fails (k : Nat) (d c : String) :
    ∀ (rps : List RuleParams) (rules : List CollectorRule) (idx : Nat),
      idx ≤ k → k < idx + rps.length →
      ∃ rules2, create_rules_go (some k) d c rules idx rps
          = (rules2, some "create_collector_rule failed") := by
  intro rps
  induction rps with
  | nil =>
    intro rules idx h1 h2
    exfalso
    simp only [List.length_nil, Nat.add_zero] at h2
    omega
  | cons rp rest ih =>
    intro rules idx h1 h2
    by_cases hk : k = idx
    · subst hk
      exact ⟨rules, by simp [create_rules_go]⟩
    · have h1' : idx + 1 ≤ k := by omega
      have h2' : k < (idx + 1) + rest.length := by
        simp only [List.length_cons] at h2
        omega
      obtain ⟨r2, hr⟩ := ih (rules ++ [⟨rp.payload, d, c, "MANAGED"⟩]) (idx + 1) h1' h2'
      exact ⟨r2, by simpa [create_rules_go, hk] using hr⟩

/-- A failing MANAGED-rule resynchronization makes the upgrade block
return an error. -/
theorem collectUpgrade_resync_fail (env : Env) (params : CollectParams)
    (v : String) (md : Metadata)
    (hm : env.init_metadata = Except.ok md)
    (hf : resyncFails env md = true) :
    ∃ rules e, collectUpgrade env params (some v) = (rules, Except.error e) := by
  unfold resyncFails at hf
  cases hdel : env.deleteRulesOk with
  | false =>
    refine ⟨env.rules0, "delete_collector_rules failed", ?_⟩
    simp [collectUpgrade, hm, delete_collector_rules, hdel]
  | true =>
    rw [hdel] at hf
    cases hcf : env.createRuleFail with
    | none =>
      rw [hcf] at hf
      simp at hf
    | some k =>
      rw [hcf] at hf
      simp only [Bool.not_true, Bool.false_or, decide_eq_true_eq] at hf
      obtain ⟨r2, hr⟩ := create_rules_go_fails k params.collector_id params.domain_id
        md.collector_rules
        (env.rules0.filter (fun r =>
          !(r.collector_id == params.collector_id && r.rule_type == "MANAGED"
            && r.domain_id == params.domain_id))) 0 (Nat.zero_le k) (by omega)
      refine ⟨r2, "create_collector_rule failed", ?_⟩
      have hd : delete_collector_rules env.deleteRulesOk env.rules0
          params.collector_id params.domain_id
          = Except.ok (env.rules0.filter (fun r =>
              !(r.collector_id == params.collector_id && r.rule_type == "MANAGED"
                && r.domain_id == params.domain_id))) := by
        rw [hdel]
        rfl
      simp only [collectUpgrade, hm, hd, create_collector_rules_by_metadata,
        hcf, hr]

/-! ## Lemmas: secret selection -/

/-- Pointwise: the source-built query, evaluated conjunctively by the
store, agrees with the spec's four-clause eligibility predicate. -/
theorem all_conds_eq_spec (sf : SecretFilter) (sid : Option String) (s : SecretRec) :
    ((set_secret_filter sf sid).all (fun c => condMatches c s))
      = spec_eligible sf sid s := by
  rcases sf with ⟨sec, sa, sch⟩
  cases sec <;> cases sa <;> cases sch <;> cases hid : pyStr sid <;>
    cases hsa : s.service_account_id <;> cases hsc : s.schema <;>
      simp [set_secret_filter, spec_eligible, condMatches, recField, hid, hsa, hsc,
        List.all_append, Bool.and_assoc]

/-- The source-built query never has more than four clauses. -/
theorem set_secret_filter_length_le (sf : SecretFilter) (sid : Option String) :
    (set_secret_filter sf sid).length ≤ 4 := by
  rcases sf with ⟨sec, sa, sch⟩
  cases sec <;> cases sa <;> cases sch <;> cases hid : pyStr sid <;>
    simp [set_secret_filter, hid]

/-- C9: For every secret filter and optional requested secret id, secret
selection builds a conjunctive (AND) query from up to four independent
clauses — secret id in the filter's `secrets` list, service-account id in
its `service_accounts` list, schema in its `schemas` list, and secret id
equal to the requested secret id when one is supplied — and when no clause
applies the query is empty so every secret visible in the domain is
eligible; the returned value is the list of secret ids of the store's
matching results. -/
theorem secret_selection_conjunctive (sf : SecretFilter) (sid : Option String)
    (ds : List SecretRec) :
    (set_secret_filter sf sid).length ≤ 4
    ∧ list_secret_from_secret_filter sf sid ds
        = (ds.filter (fun s => spec_eligible sf sid s)).map (·.secret_id)
    ∧ set_secret_filter ⟨none, none, none⟩ none = []
    ∧ list_secret_from_secret_filter ⟨none, none, none⟩ none ds
        = ds.map (·.secret_id) := by
  refine ⟨set_secret_filter_length_le sf sid, ?_, rfl, rfl⟩
  unfold list_secret_from_secret_filter
  by_cases hf : (set_secret_filter sf sid).isEmpty
  · have hnil : set_secret_filter sf sid = [] := by
      simpa [List.isEmpty_iff] using hf
    have hall : ∀ s ∈ ds, spec_eligible sf sid s = true := by
      intro s _
      rw [← all_conds_eq_spec, hnil]
      rfl
    simp only [hf, if_pos, list_secrets]
    rw [List.filter_eq_self.mpr hall]
  · simp only [hf, if_neg, Bool.false_eq_true, not_false_iff, ite_false, list_secrets]
    congr 1
    exact List.filter_congr (fun s _ => all_conds_eq_spec sf sid s)

/-! ## Lemmas: provider resolution in `create` -/

/-- C10: In the create operation, when the plugin's capability declares a
non-empty supported-providers list, the collector's provider is accepted
only if the caller-supplied provider is a member of that list — otherwise
(including when no provider is supplied) create raises an
invalid-parameter error; when the list is empty or absent, the provider is
the caller-supplied value if present (a truthy string), else the plugin's
own provider. -/
theorem create_provider_resolution (prov : Option String) (repo : RepoPluginInfo) :
    (repo.capability.supported_providers ≠ [] →
      ((∃ p, prov = some p ∧ p ∈ repo.capability.supported_providers) ↔
        create_capability_provider prov repo = Except.ok (repo.capability, prov))
      ∧ ((∀ p, prov = some p → p ∉ repo.capability.supported_providers) →
        create_capability_provider prov repo = Except.error "ERROR_INVALID_PARAMETER"))
    ∧ (repo.capability.supported_providers = [] →
      create_capability_provider prov repo =
        Except.ok (repo.capability,
          match pyStr prov with
          | some p => some p
          | none => repo.provider)) := by
  constructor
  · intro hne
    have hemp : repo.capability.supported_providers.isEmpty = false := by
      simpa [List.isEmpty_iff] using hne
    constructor
    · constructor
      · rintro ⟨p, rfl, hp⟩
        simp [create_capability_provider, get_plugin_providers, hemp, hp]
      · intro hok
        cases prov with
        | none =>
          simp [create_capability_provider, get_plugin_providers, hemp] at hok
        | some p =>
          refine ⟨p, rfl, ?_⟩
          by_contra hnp
          simp [create_capability_provider, get_plugin_providers, hemp, hnp] at hok
    · intro hnone
      cases prov with
      | none => simp [create_capability_provider, get_plugin_providers, hemp]
      | some p =>
        simp [create_capability_provider, get_plugin_providers, hemp, hnone p rfl]
  · intro hnil
    simp [create_capability_provider, get_plugin_providers, hnil]

/-- Witness for C10 at a concrete input: `aws` is in the supported list
and is accepted; the hypothesis of the member case is discharged. -/
theorem create_provider_resolution_witness :
    repoMulti.capability.supported_providers ≠ []
    ∧ create_capability_provider (some "aws") repoMulti
        = Except.ok (repoMulti.capability, some "aws") :=
  ⟨by decide,
   (((create_provider_resolution (some "aws") repoMulti).1 (by decide)).1).mp
     ⟨"aws", rfl, by decide⟩⟩

/-! ## Claim theorems -/

/-- C1: In collect, for every eligible-secret list and every secret in it,
an exception raised anywhere in that secret's loop body (counter
increment, secret-attribute resolution, job-task creation, payload
building, schema validation, serialization, enqueue, or synchronous
execution) is caught, recorded via the job's error log tagged
`ERROR_COLLECTOR_COLLECTING` together with that secret's id, and the loop
proceeds to the next secret; no per-secret failure prevents any subsequent
secret in the same invocation from being processed. -/
theorem per_secret_failure_isolated (env : Env) (params : CollectParams)
    (l : List String) (j : Job)
    (hsel : secretIdsOf env params = Except.ok l)
    (hj : (collect env params).job = some j) :
    ∀ sid ∈ l,
      Event.secretStart sid ∈ (collect env params).events
      ∧ (bodyFails (env.secretOracle sid) env.queueName = true →
          collectingErr sid ∈ j.errors) := by
  unfold secretIdsOf at hsel
  cases hD : env.domainSecrets with
  | error e =>
    rw [hD] at hsel
    simp at hsel
  | ok ds =>
    rw [hD] at hsel
    have hl : list_secret_from_secret_filter env.plugin_info.secret_filters
        params.secret_id ds = l := by
      simpa using hsel
    obtain ⟨ep, uv, rules, piU, hE, hU, hfl⟩ := collect_job_some_cases env params j hj
    rw [← hfl] at hl
    cases hemp : (list_secret_from_secret_filter piU.secret_filters
        params.secret_id ds).isEmpty with
    | true =>
      have hnil : l = [] := by
        rw [← hl]
        exact List.isEmpty_iff.mp hemp
      intro sid hsid
      rw [hnil] at hsid
      cases hsid
    | false =>
      have hc := collect_loop env params ep uv rules piU ds hE hU hD hemp
      rw [hl] at hc
      obtain ⟨jf, hjf, herr, htot, hev, hok, hraw⟩ :=
        loopOutcome_facts env params piU rules l
      rw [hc, hjf] at hj
      have hjeq : j = jf := by
        simpa using hj.symm
      intro sid hsid
      refine ⟨?_, ?_⟩
      · rw [hc, hev]
        exact runLoop_start_events env params piU l ⟨initJob env, [], []⟩ sid hsid
      · intro hbf
        rw [hjeq, herr, runLoop_errors]
        have hini : (⟨initJob env, [], []⟩ : LoopSt).job.errors = [] := by
          unfold initJob
          cases env.inprogressOk <;> rfl
        rw [hini]
        have hmemf : sid ∈ l.filter
            (fun s => bodyFails (env.secretOracle s) env.queueName) :=
          List.mem_filter.mpr ⟨hsid, hbf⟩
        simpa using List.mem_map_of_mem collectingErr hmemf

/-- Witness for C1: in the healthy environment the single eligible secret
`s1` is reached by the loop. -/
theorem per_secret_failure_isolated_witness :
    Event.secretStart "s1" ∈ (collect envBase pBase).events := by
  have h := per_secret_failure_isolated envBase pBase ["s1"]
    (jOf (collect envBase pBase)) rfl rfl
  exact (h "s1" (by simp)).1

/-- C4: For every collector whose secret selection yields zero eligible
secrets, collect returns immediately a Job in state SUCCESS with
`total_tasks = 0` and an empty error log, and no JobTask is created. -/
theorem empty_selection_success (env : Env) (params : CollectParams) (j : Job)
    (hsel : secretIdsOf env params = Except.ok [])
    (hj : (collect env params).job = some j) :
    j.state = "SUCCESS" ∧ j.total_tasks = 0 ∧ j.errors = []
    ∧ (collect env params).job_tasks = []
    ∧ (collect env params).ret = Except.ok j
    ∧ (collect env params).events = [] := by
  unfold secretIdsOf at hsel
  cases hD : env.domainSecrets with
  | error e =>
    rw [hD] at hsel
    simp at hsel
  | ok ds =>
    rw [hD] at hsel
    have hl : list_secret_from_secret_filter env.plugin_info.secret_filters
        params.secret_id ds = [] := by
      simpa using hsel
    obtain ⟨ep, uv, rules, piU, hE, hU, hfl⟩ := collect_job_some_cases env params j hj
    rw [← hfl] at hl
    have hemp : (list_secret_from_secret_filter piU.secret_filters
        params.secret_id ds).isEmpty = true := by
      rw [hl]
      rfl
    have hc := collect_empty env params ep uv rules piU ds hE hU hD hemp
    rw [hc] at hj
    have hjeq : j = ⟨env.jobId, "SUCCESS", 0, 0, [], []⟩ := by
      simpa using hj.symm
    rw [hc, hjeq]
    exact ⟨rfl, rfl, rfl, rfl, rfl, rfl⟩

/-- Witness for C4: an empty secret store yields a SUCCESS job with no
tasks. -/
theorem empty_selection_success_witness :
    (jOf (collect envC4 pBase)).state = "SUCCESS"
    ∧ (collect envC4 pBase).job_tasks = [] := by
  have h := empty_selection_success envC4 pBase (jOf (collect envC4 pBase)) rfl rfl
  exact ⟨h.1, h.2.2.2.1⟩

/-- C5 (amended): for every collect invocation with an eligible-secret
list of length N, the counter-increment sequence is attempted once per
secret, and `total_tasks = N` when the loop finishes provided the
total-counter increment call itself succeeds for every secret — the
outcome of every later per-secret step (secret resolution, job-task
creation, payload building, validation, serialization, enqueue,
synchronous execution) never affects the final count.  (The original
claim, with no proviso on the increment calls, is refuted by
`total_tasks_increment_can_fail`.) -/
theorem total_tasks_eq_secret_count (env : Env) (params : CollectParams)
    (l : List String) (j : Job)
    (hsel : secretIdsOf env params = Except.ok l)
    (hinc : ∀ sid ∈ l, (env.secretOracle sid).incTotalOk = true)
    (hj : (collect env params).job = some j) :
    j.total_tasks = l.length := by
  unfold secretIdsOf at hsel
  cases hD : env.domainSecrets with
  | error e =>
    rw [hD] at hsel
    simp at hsel
  | ok ds =>
    rw [hD] at hsel
    have hl : list_secret_from_secret_filter env.plugin_info.secret_filters
        params.secret_id ds = l := by
      simpa using hsel
    obtain ⟨ep, uv, rules, piU, hE, hU, hfl⟩ := collect_job_some_cases env params j hj
    rw [← hfl] at hl
    cases hemp : (list_secret_from_secret_filter piU.secret_filters
        params.secret_id ds).isEmpty with
    | true =>
      have hnil : l = [] := by
        rw [← hl]
        exact List.isEmpty_iff.mp hemp
      have hc := collect_empty env params ep uv rules piU ds hE hU hD hemp
      rw [hc] at hj
      have hjeq : j = ⟨env.jobId, "SUCCESS", 0, 0, [], []⟩ := by
        simpa using hj.symm
      rw [hjeq, hnil]
      rfl
    | false =>
      have hc := collect_loop env params ep uv rules piU ds hE hU hD hemp
      rw [hl] at hc
      obtain ⟨jf, hjf, herr, htot, hev, hok, hraw⟩ :=
        loopOutcome_facts env params piU rules l
      rw [hc, hjf] at hj
      have hjeq : j = jf := by
        simpa using hj.symm
      rw [hjeq, htot, runLoop_total]
      have hini : (⟨initJob env, [], []⟩ : LoopSt).job.total_tasks = 0 := by
        unfold initJob
        cases env.inprogressOk <;> rfl
      rw [hini, List.filter_eq_self.mpr hinc]
      omega

/-- Witness for C5's amended theorem: the healthy environment has one
eligible secret and finishes with `total_tasks = 1`. -/
theorem total_tasks_eq_secret_count_witness :
    (jOf (collect envBase pBase)).total_tasks = 1 := by
  have h := total_tasks_eq_secret_count envBase pBase ["s1"]
    (jOf (collect envBase pBase)) rfl (by decide) rfl
  simpa using h

/-- Counterexample to C5 as stated: with one eligible secret whose
total-counter increment call raises (a per-task outcome the source catches
at the same place as every other step), the loop finishes with
`total_tasks = 0`, not 1. -/
theorem total_tasks_increment_can_fail :
    secretIdsOf envC5 pBase = Except.ok ["s1"]
    ∧ ((collect envC5 pBase).job.map Job.total_tasks) = some 0
    ∧ ((collect envC5 pBase).job.map Job.errors)
        = some [collectingErr "s1"] :=
  ⟨rfl, rfl, rfl⟩

/-- C3 (amended): if secret selection raises during collect, a job error
of kind `ERROR_COLLECT_INITIALIZE` is recorded on the already-created job,
the job is forced to state ERROR, no JobTask is created, and an
initialization error propagates to the caller; the only other paths that
abort the collect operation after job creation are failures of the
unguarded post-loop updates (the collector's last-collected timestamp and
the final job/project persist, source lines 281-282), which propagate the
raw error.  (The original "this is the only path" wording is refuted by
`selection_failure_only_abort_counterexample`.) -/
theorem selection_failure_init_error (env : Env) (params : CollectParams) (j : Job)
    (hj : (collect env params).job = some j) :
    (∀ e, env.domainSecrets = Except.error e →
      (collect env params).ret = Except.error CollectErr.errorCollectInitialize
      ∧ j.state = "ERROR"
      ∧ ErrEntry.mk "ERROR_COLLECT_INITIALIZE" none ∈ j.errors
      ∧ (collect env params).job_tasks = [])
    ∧ (∀ err, (collect env params).ret = Except.error err →
        err ≠ CollectErr.errorCollectInitialize →
        (env.updateLastCollectedOk = false ∨ env.updateJobOk = false)) := by
  obtain ⟨ep, uv, rules, piU, hE, hU, hfl⟩ := collect_job_some_cases env params j hj
  constructor
  · intro e hD
    have hc := collect_selection_error env params ep uv rules piU e hE hU hD
    rw [hc] at hj
    have hjeq : j = ⟨env.jobId, "ERROR", 0, 0,
        [⟨"ERROR_COLLECT_INITIALIZE", none⟩], []⟩ := by
      simpa using hj.symm
    rw [hc, hjeq]
    exact ⟨rfl, rfl, by simp, rfl⟩
  · intro err hret hne
    cases hD : env.domainSecrets with
    | error e =>
      have hc := collect_selection_error env params ep uv rules piU e hE hU hD
      rw [hc] at hret
      simp only [Except.error.injEq] at hret
      exact absurd hret.symm hne
    | ok ds =>
      cases hemp : (list_secret_from_secret_filter piU.secret_filters
          params.secret_id ds).isEmpty with
      | true =>
        have hc := collect_empty env params ep uv rules piU ds hE hU hD hemp
        rw [hc] at hret
        simp at hret
      | false =>
        have hc := collect_loop env params ep uv rules piU ds hE hU hD hemp
        rw [hc] at hret
        obtain ⟨jf, hjf, herr, htot, hev, hok, hraw⟩ :=
          loopOutcome_facts env params piU rules
            (list_secret_from_secret_filter piU.secret_filters params.secret_id ds)
        exact (hraw err hret).2

/-- Witness for C3's amended theorem: with a raising secret store, the
initialize error propagates and the job is marked ERROR. -/
theorem selection_failure_init_error_witness :
    (collect envSel pBase).ret = Except.error CollectErr.errorCollectInitialize
    ∧ (jOf (collect envSel pBase)).state = "ERROR"
    ∧ (collect envSel pBase).job_tasks = [] := by
  have h := (selection_failure_init_error envSel pBase
    (jOf (collect envSel pBase)) rfl).1 "secret service unavailable" rfl
  exact ⟨h.1, h.2.1, h.2.2.2⟩

/-- Counterexample to C3 as stated: with secret selection succeeding (one
eligible secret, every per-secret call healthy) but the unguarded
post-loop timestamp update raising, collect aborts after job creation
through a path that is not the secret-selection path — the job is left
IN_PROGRESS, its error log is empty, and the raw error propagates. -/
theorem selection_failure_only_abort_counterexample :
    envC3.domainSecrets = Except.ok [secA]
    ∧ (collect envC3 pBase).job.isSome = true
    ∧ (collect envC3 pBase).ret
        = Except.error (CollectErr.raw "update_last_collected_time failed")
    ∧ ((collect envC3 pBase).job.map Job.state) = some "IN_PROGRESS"
    ∧ ((collect envC3 pBase).job.map Job.errors) = some [] :=
  ⟨rfl, rfl, rfl, rfl, rfl⟩

/-- C8 (amended): once secret selection has succeeded with a non-empty
result, failures while marking the job in-progress and in every per-secret
step are absorbed; provided the two unguarded post-loop updates (collector
last-collected timestamp, final job/project persist) succeed, collect
returns the job record, whose state and error list are the sole signal of
partial versus total success.  (The original "collect never raises"
wording is refuted by `collect_raises_after_loop_counterexample`.) -/
theorem returns_job_when_trailing_updates_succeed (env : Env)
    (params : CollectParams) (l : List String) (j : Job)
    (hsel : secretIdsOf env params = Except.ok l)
    (hne : l ≠ [])
    (hlc : env.updateLastCollectedOk = true)
    (huj : env.updateJobOk = true)
    (hj : (collect env params).job = some j) :
    (collect env params).ret = Except.ok j := by
  unfold secretIdsOf at hsel
  cases hD : env.domainSecrets with
  | error e =>
    rw [hD] at hsel
    simp at hsel
  | ok ds =>
    rw [hD] at hsel
    have hl : list_secret_from_secret_filter env.plugin_info.secret_filters
        params.secret_id ds = l := by
      simpa using hsel
    obtain ⟨ep, uv, rules, piU, hE, hU, hfl⟩ := collect_job_some_cases env params j hj
    rw [← hfl] at hl
    cases hemp : (list_secret_from_secret_filter piU.secret_filters
        params.secret_id ds).isEmpty with
    | true =>
      exfalso
      apply hne
      rw [← hl]
      exact List.isEmpty_iff.mp hemp
    | false =>
      have hc := collect_loop env params ep uv rules piU ds hE hU hD hemp
      rw [hl] at hc
      obtain ⟨jf, hjf, herr, htot, hev, hok, hraw⟩ :=
        loopOutcome_facts env params piU rules l
      rw [hc, hjf] at hj
      have hjeq : j = jf := by
        simpa using hj.symm
      rw [hc, hjeq]
      exact hok hlc huj

/-- Witness for C8's amended theorem: the healthy environment returns its
job. -/
theorem returns_job_when_trailing_updates_succeed_witness :
    (collect envBase pBase).ret = Except.ok (jOf (collect envBase pBase)) :=
  returns_job_when_trailing_updates_succeed envBase pBase ["s1"]
    (jOf (collect envBase pBase)) rfl (by decide) rfl rfl rfl

/-- Counterexample to C8 as stated: secret selection succeeded with a
non-empty result and every per-secret step was absorbed, yet collect
raises, because the final job/project persist (source line 282) is outside
every try block. -/
theorem collect_raises_after_loop_counterexample :
    secretIdsOf envC8 pBase = Except.ok ["s1"]
    ∧ (collect envC8 pBase).ret = Except.error (CollectErr.raw "update_job failed") :=
  ⟨rfl, rfl⟩

/-- C7 (amended): during a collect invocation in which the plugin version
was upgraded, a failure inside the MANAGED-rule resynchronization (the
delete of old MANAGED rules or the creation of rules from new metadata) is
fatal to the collect operation: the exception propagates out of collect,
no job is created and no task is dispatched — the delete and create calls
(source lines 209-210) are not wrapped in any try block.  (The original
"non-fatal" claim is refuted by `rule_resync_nonfatal_counterexample`.) -/
theorem rule_resync_failure_fatal (env : Env) (params : CollectParams)
    (ep v : String) (md : Metadata)
    (hE : env.endpoint = Except.ok (ep, some v))
    (hm : env.init_metadata = Except.ok md)
    (hf : resyncFails env md = true) :
    (collect env params).job = none
    ∧ (collect env params).job_tasks = []
    ∧ (collect env params).events = []
    ∧ ∃ m, (collect env params).ret = Except.error (CollectErr.raw m) := by
  obtain ⟨rules, e, hU⟩ := collectUpgrade_resync_fail env params v md hm hf
  have hc := collect_upgrade_error env params ep (some v) rules e hE hU
  rw [hc]
  exact ⟨rfl, rfl, rfl, e, rfl⟩

/-- Witness for C7's amended theorem: a raising rule delete during an
upgrade aborts collect before any job exists. -/
theorem rule_resync_failure_fatal_witness :
    (collect envC7 pBase).job = none
    ∧ (collect envC7 pBase).job_tasks = [] := by
  have h := rule_resync_failure_fatal envC7 pBase "ep" "2.0" ⟨[⟨"r1"⟩]⟩
    rfl rfl (by decide)
  exact ⟨h.1, h.2.1⟩

/-- Counterexample to C7 as stated: the upgrade happened (endpoint
resolution returned version 2.0), the MANAGED-rule delete raised, and
collect did not proceed to create the job or dispatch tasks — the raise
propagated instead. -/
theorem rule_resync_nonfatal_counterexample :
    envC7.endpoint = Except.ok ("ep", some "2.0")
    ∧ (collect envC7 pBase).job = none
    ∧ (collect envC7 pBase).ret
        = Except.error (CollectErr.raw "delete_collector_rules failed") :=
  ⟨rfl, rfl, rfl⟩

/-- C2 (code bug, evaluated at the failing input): a collect with a plugin
upgrade on collector `collector-1` in domain `domain-1`, whose fresh
metadata declares one collector rule, deletes the collector's old MANAGED
rule and leaves the CUSTOM rule alone — but the rule created from the new
metadata is stamped with `domain_id = "collector-1"` and
`collector_id = "domain-1"`, the two ids swapped: the call sites (source
lines 86, 210, 322) pass `(metadata, collector_id, domain_id)` into
`create_collector_rules_by_metadata(self, plugin_metadata, domain_id,
collector_id)` (source line 405).  The claim requires the created rule to
carry the collector's id as `collector_id` and the domain's id as
`domain_id`.  Rule fields below are in declaration order
`(payload, domain_id, collector_id, rule_type)`. -/
theorem managed_rule_stamp_swapped :
    pBase.collector_id = "collector-1"
    ∧ pBase.domain_id = "domain-1"
    ∧ (collect envC2 pBase).rules
        = [⟨"cust", "domain-1", "collector-1", "CUSTOM"⟩,
           ⟨"r1", "collector-1", "domain-1", "MANAGED"⟩] :=
  ⟨rfl, rfl, rfl⟩

/-- C6: for each secret in the collect loop, the dispatch mode is
asynchronous if and only if both a collection queue name is configured and
a task-pipeline object was successfully constructed; the asynchronous path
validates the task payload against the fixed task schema, serializes it
and enqueues it by the queue name; otherwise the synchronous path invokes
the in-process collection execution entry point with the built payload
(plugin info, secret data, domain id, job id, use_cache flag). -/
theorem dispatch_mode_decision (env : Env) (params : CollectParams)
    (piU : PluginInfo) (st : LoopSt) (sid : String) (taskOpt : Option String)
    (h1 : (env.secretOracle sid).incTotalOk = true)
    (h2 : (env.secretOracle sid).incRemainedOk = true)
    (h3 : ∃ s, (env.secretOracle sid).getSecret = Except.ok s)
    (h4 : (env.secretOracle sid).createJobTaskOk = true)
    (h5 : (env.secretOracle sid).makeParamsOk = true)
    (h6 : (env.secretOracle sid).taskPipeline = Except.ok taskOpt) :
    ((Event.modeAsync sid ∈ (processSecret env params piU st sid).2)
        ↔ (taskOpt.isSome = true ∧ env.queueName.isSome = true))
    ∧ ((Event.modeSync sid ∈ (processSecret env params piU st sid).2)
        ↔ ¬(taskOpt.isSome = true ∧ env.queueName.isSome = true))
    ∧ (∀ t q, taskOpt = some t → env.queueName = some q →
        Event.taskValidated sid t ∈ (processSecret env params piU st sid).2
        ∧ ((env.secretOracle sid).validateOk = true →
            (env.secretOracle sid).serializeOk = true →
            Event.enqueued sid q t ∈ (processSecret env params piU st sid).2))
    ∧ ((taskOpt = none ∨ env.queueName = none) →
        Event.syncExec sid piU (env.secretOracle sid).secretData params.domain_id
          st.job.job_id params.use_cache ∈ (processSecret env params piU st sid).2) := by
  obtain ⟨s, h3⟩ := h3
  unfold processSecret
  cases h7 : taskOpt with
  | some t =>
    cases h8 : env.queueName with
    | some q =>
      cases h9 : (env.secretOracle sid).validateOk <;>
        cases h10 : (env.secretOracle sid).serializeOk <;>
        cases h11 : (env.secretOracle sid).enqueueOk <;>
        simp [h1, h2, h3, h4, h5, h6, h7, h8, h9, h10, h11, failFinish,
          make_collecting_parameters]
    | none =>
      cases h12 : (env.secretOracle sid).syncOk <;>
        simp [h1, h2, h3, h4, h5, h6, h7, h8, h12, failFinish,
          make_collecting_parameters]
  | none =>
    cases h8 : env.queueName with
    | some q =>
      cases h12 : (env.secretOracle sid).syncOk <;>
        simp [h1, h2, h3, h4, h5, h6, h7, h8, h12, failFinish,
          make_collecting_parameters]
    | none =>
      cases h12 : (env.secretOracle sid).syncOk <;>
        simp [h1, h2, h3, h4, h5, h6, h7, h8, h12, failFinish,
          make_collecting_parameters]

/-- Witness for C6: with a configured queue and a constructed task
pipeline, dispatch is asynchronous, the payload is validated and the task
is enqueued by the configured queue name. -/
theorem dispatch_mode_decision_witness :
    Event.modeAsync "s1" ∈ (processSecret envAsync pBase piBase stAsync "s1").2
    ∧ Event.enqueued "s1" "collect_queue" "taskpayload"
        ∈ (processSecret envAsync pBase piBase stAsync "s1").2 := by
  have h := dispatch_mode_decision envAsync pBase piBase stAsync "s1"
    (some "taskpayload") rfl rfl ⟨secA, rfl⟩ rfl rfl rfl
  exact ⟨h.1.mpr ⟨rfl, rfl⟩,
    ((h.2.2.1 "taskpayload" "collect_queue" rfl rfl).2 rfl rfl)⟩

end CollectorSvc
